import Mathlib

/-!
Shallow embedding of `src/plugin/volumetric_drilling/video_recording_controller.cpp`
(class `VideoRecordingController`).

Modelling conventions:
* Timestamps are C++ `double` values that the controller only stores and
  forwards, never inspects or computes with; they are therefore modelled by an
  arbitrary type parameter `T` (witnesses instantiate `T := Int`).
* `m_ffmpeg : FILE*` (the `popen` handle) is modelled as `Option Nat`:
  `none` is the C++ null pointer, `some h` an opaque live handle.
* `popen` is an environment call; its result at the one call site in
  `start_recording` is supplied as a function argument `popenF` from the
  command string to the handle it yields (`none` = spawn failure; `popen`
  itself never throws, so the C++ `catch` around it is dead code).
* The return value of `pclose` and the success of `cnpy::npy_save` (which either
  completes or throws, caught in `close`) are likewise environment inputs,
  passed to `close` as arguments; the data `npy_save` would write is
  returned as an observable output.
* The static local `save_first_frame_img` in `update` has process lifetime,
  not object lifetime; it lives outside `ControllerState`, in `ProcState`.
* Unmodelled: the frame-buffer/image objects (`renderView`, `copyImageBuffer`,
  `fwrite` of pixel bytes, `saveToFile`) which carry no state the claims
  mention, beyond the fact that `update` attempts the one-time still-image
  save, which is recorded as an event flag in the result of `update`.
-/

namespace VDrill

/-- State of one `VideoRecordingController` object (the C++ data members that
the recording logic reads or writes).  `m_cameraSet` models whether `m_camera`
is non-null (it is set from `getCameras()[0]` in `init`, checked with
`!m_camera` in `start_recording`). -/
structure ControllerState (T : Type) where
  m_width : Nat
  m_height : Nat
  m_saveDirectory : String
  m_video_filename : String
  m_timestamps_filename : String
  m_ffmpeg : Option Nat
  m_recorded_timestamps : List T
  m_cameraSet : Bool
  deriving DecidableEq, Repr

/-- A controller object as constructed: members default-initialized
(pointers null, strings empty, vector empty). -/
def freshController (T : Type) : ControllerState T :=
  { m_width := 0
    m_height := 0
    m_saveDirectory := ""
    m_video_filename := ""
    m_timestamps_filename := ""
    m_ffmpeg := none
    m_recorded_timestamps := []
    m_cameraSet := false }

/-- `VideoRecordingController::init` (lines 73-96).  Binds the camera, copies
its resolution, sets the save directory, and unconditionally returns `1`.
`cameraWidth`/`cameraHeight` are the resolution of `getCameras()[0]`
(`m_camera->m_width`, `m_camera->m_height`).  The frame-buffer and image
setups have no modelled state.  The source performs no validation of the
resolution or the directory. -/
def init {T : Type} (cameraWidth cameraHeight : Nat) (startingDir : String)
    (st : ControllerState T) : ControllerState T × Int :=
  ({ st with
      m_cameraSet := true
      m_width := cameraWidth
      m_height := cameraHeight
      m_saveDirectory := startingDir }, 1)

/-- The FFmpeg command string built in `start_recording` (lines 105-123),
append by append, from the resolution and the video filename. -/
def ffmpegCommand (m_width m_height : Nat) (m_video_filename : String) : String :=
  let size_str : String := toString m_width ++ "x" ++ toString m_height
  let cmd : String := "ffmpeg"
  let cmd := cmd ++ " -r 60"
  let cmd := cmd ++ " -f rawvideo"
  let cmd := cmd ++ " -pix_fmt rgba"
  let cmd := cmd ++ (" -s " ++ size_str)
  let cmd := cmd ++ " -i -"
  let cmd := cmd ++ " -threads 0"
  let cmd := cmd ++ " -preset fast"
  let cmd := cmd ++ " -y"
  let cmd := cmd ++ " -pix_fmt yuv420p"
  let cmd := cmd ++ " -crf 21"
  let cmd := cmd ++ " -vf vflip"
  cmd ++ (" " ++ m_video_filename)

/-- `VideoRecordingController::start_recording` (lines 98-138).
Returns `-1` if `!m_camera || m_saveDirectory.empty()`.  Otherwise builds
the video filename and the FFmpeg command, sets `m_ffmpeg := popen(cmd,"w")`
(modelled by `popenF cmd`; the surrounding try/catch cannot fire because
`popen` does not throw), then clears `m_recorded_timestamps`, pushes
`world_timestamp`, and returns `1` - regardless of whether `popen`
succeeded.  The local `time_t now` and the locally built
`timestamps_filename` are unused by the function. -/
def start_recording {T : Type} (popenF : String → Option Nat) (world_timestamp : T)
    (st : ControllerState T) : ControllerState T × Int :=
  if !st.m_cameraSet || st.m_saveDirectory.isEmpty then
    (st, -1)
  else
    let m_video_filename := st.m_saveDirectory ++ "/" ++ "world.mp4"
    let cmd := ffmpegCommand st.m_width st.m_height m_video_filename
    let m_ffmpeg := popenF cmd
    ({ st with
        m_video_filename := m_video_filename
        m_ffmpeg := m_ffmpeg
        m_recorded_timestamps := [world_timestamp] }, 1)

/-- Observable outcome of one `update` call (`update` returns `void`; the two
paths are distinguished only by what the body does and logs).
`errNoFfmpeg` is the early-return path that prints
"ERROR! FFmpeg process not initialized. Call start_recording first." -/
inductive UpdateResult where
  | ok : UpdateResult
  | errNoFfmpeg : UpdateResult
  deriving DecidableEq, Repr

/-- Process-lifetime state: the controller object plus the static local
`save_first_frame_img` of `update` (initialized `true` once per process,
never reset). -/
structure ProcState (T : Type) where
  ctrl : ControllerState T
  save_first_frame_img : Bool
  deriving DecidableEq, Repr

/-- `VideoRecordingController::update` (lines 211-237).  If `m_ffmpeg` is
non-null: writes the frame (unmodelled), appends `current_timestamp` to
`m_recorded_timestamps`, then, when the static `save_first_frame_img` is
still true, saves the first-frame still image (the event is the `Bool` in
the result) and clears the flag.  If `m_ffmpeg` is null: logs the error and
returns early - nothing is appended and the still-image code is not
reached. -/
def update {T : Type} (current_timestamp : T) (st : ProcState T) :
    ProcState T × UpdateResult × Bool :=
  match st.ctrl.m_ffmpeg with
  | some _ =>
    let ctrl := { st.ctrl with
        m_recorded_timestamps := st.ctrl.m_recorded_timestamps ++ [current_timestamp] }
    if st.save_first_frame_img then
      ({ ctrl := ctrl, save_first_frame_img := false }, UpdateResult.ok, true)
    else
      ({ ctrl := ctrl, save_first_frame_img := st.save_first_frame_img },
        UpdateResult.ok, false)
  | none => (st, UpdateResult.errNoFfmpeg, false)

/-- `VideoRecordingController::close` (lines 249-267).  If `m_ffmpeg` is
non-null: calls `pclose` (its return value `pclose_status` is discarded),
nulls `m_ffmpeg`, sets `m_timestamps_filename`, then attempts
`save_timestamps_to_npy`; on success (`npy_save_ok = true`) the full
timestamp vector is written to that file (third component) and `close`
returns `true`, on failure the exception is caught and `close` returns
`false`.  If `m_ffmpeg` is null the whole body is skipped and `close`
returns `true`.  `m_recorded_timestamps` is never cleared here. -/
def close {T : Type} (pclose_status : Int) (npy_save_ok : Bool)
    (st : ControllerState T) : ControllerState T × Bool × Option (String × List T) :=
  match st.m_ffmpeg with
  | some _ =>
    let m_timestamps_filename := st.m_saveDirectory ++ "/" ++ "world_timestamps.npy"
    let st := { st with
        m_ffmpeg := none
        m_timestamps_filename := m_timestamps_filename }
    if npy_save_ok then
      (st, true, some (m_timestamps_filename, st.m_recorded_timestamps))
    else
      (st, false, none)
  | none => (st, true, none)

/-- Run a sequence of `update` calls, keeping only the state. -/
def runUpdates {T : Type} : List T → ProcState T → ProcState T
  | [], st => st
  | t :: ts, st => runUpdates ts (update t st).1

/-- One host-driven call into the controller, with its environment inputs:
the camera resolution seen by `init`, the `popen` result seen by
`start_recording`, and the `pclose` status / `npy_save` outcome seen by
`close`. -/
inductive Op (T : Type) where
  | opInit (cameraWidth cameraHeight : Nat) (startingDir : String) : Op T
  | opStart (popenResult : Option Nat) (world_timestamp : T) : Op T
  | opUpdate (current_timestamp : T) : Op T
  | opClose (pclose_status : Int) (npy_save_ok : Bool) : Op T

/-- Execute one call on the process state; the second component counts the
first-frame still-image saves this call performed (0 or 1).  Only `update`
touches the static `save_first_frame_img`. -/
def stepSaves {T : Type} : Op T → ProcState T → ProcState T × Nat
  | Op.opInit w h d, st =>
    ({ ctrl := (init w h d st.ctrl).1,
       save_first_frame_img := st.save_first_frame_img }, 0)
  | Op.opStart sp t, st =>
    ({ ctrl := (start_recording (fun _ => sp) t st.ctrl).1,
       save_first_frame_img := st.save_first_frame_img }, 0)
  | Op.opUpdate t, st =>
    let r := update t st
    (r.1, if r.2.2 then 1 else 0)
  | Op.opClose pc ok, st =>
    ({ ctrl := (close pc ok st.ctrl).1,
       save_first_frame_img := st.save_first_frame_img }, 0)

/-- Execute a whole call sequence, totalling the still-image saves. -/
def runSaves {T : Type} : List (Op T) → ProcState T → ProcState T × Nat
  | [], st => (st, 0)
  | op :: ops, st =>
    let r := stepSaves op st
    let r2 := runSaves ops r.1
    (r2.1, r.2 + r2.2)

/-- 1 while the process-lifetime still-image flag is still armed, else 0. -/
def flagWeight {T : Type} (st : ProcState T) : Nat :=
  if st.save_first_frame_img then 1 else 0

/-- A fresh process: a fresh controller object and the static
`save_first_frame_img` at its initializer value `true`. -/
def freshProc (T : Type) : ProcState T :=
  { ctrl := freshController T, save_first_frame_img := true }

/-- One `update` with a live handle appends exactly the given timestamp and
leaves the handle untouched. -/
theorem update_live {T : Type} (t : T) (st : ProcState T) (hdl : Nat)
    (hlive : st.ctrl.m_ffmpeg = some hdl) :
    (update t st).1.ctrl.m_recorded_timestamps
        = st.ctrl.m_recorded_timestamps ++ [t]
      ∧ (update t st).1.ctrl.m_ffmpeg = some hdl := by
  unfold update
  rw [hlive]
  by_cases hf : st.save_first_frame_img = true
  · simp [hf, hlive]
  · simp [hf, hlive]

/-- Iterated `update` with a live handle appends the timestamps in order. -/
theorem runUpdates_live {T : Type} (ts : List T) (st : ProcState T) (hdl : Nat)
    (hlive : st.ctrl.m_ffmpeg = some hdl) :
    (runUpdates ts st).ctrl.m_recorded_timestamps
        = st.ctrl.m_recorded_timestamps ++ ts
      ∧ (runUpdates ts st).ctrl.m_ffmpeg = some hdl := by
  induction ts generalizing st with
  | nil => simpa [runUpdates] using hlive
  | cons t ts ih =>
    have h1 := update_live t st hdl hlive
    have h2 := ih (update t st).1 h1.2
    constructor
    · rw [runUpdates, h2.1, h1.1, List.append_assoc]
      rfl
    · rw [runUpdates]
      exact h2.2

/-- Merge the literal pieces appended before the size string. -/
theorem cmd_head_merge (X : String) :
    "ffmpeg" ++ (" -r 60" ++ (" -f rawvideo" ++ (" -pix_fmt rgba" ++ (" -s " ++ X))))
      = "ffmpeg -r 60 -f rawvideo -pix_fmt rgba -s " ++ X := by
  rw [← String.append_assoc, ← String.append_assoc, ← String.append_assoc,
    ← String.append_assoc]
  rfl

/-- Merge the literal pieces appended after the size string. -/
theorem cmd_tail_merge (Y : String) :
    " -i -" ++ (" -threads 0" ++ (" -preset fast" ++ (" -y" ++ (" -pix_fmt yuv420p" ++
        (" -crf 21" ++ (" -vf vflip" ++ (" " ++ Y)))))))
      = " -i - -threads 0 -preset fast -y -pix_fmt yuv420p -crf 21 -vf vflip " ++ Y := by
  rw [← String.append_assoc, ← String.append_assoc, ← String.append_assoc,
    ← String.append_assoc, ← String.append_assoc, ← String.append_assoc,
    ← String.append_assoc]
  rfl

theorem ffmpegCommand_eq (w h : Nat) (d : String) :
    ffmpegCommand w h (d ++ "/" ++ "world.mp4")
      = "ffmpeg -r 60 -f rawvideo -pix_fmt rgba -s " ++ toString w ++ "x" ++ toString h
          ++ " -i - -threads 0 -preset fast -y -pix_fmt yuv420p -crf 21 -vf vflip "
          ++ d ++ "/world.mp4" := by
  unfold ffmpegCommand
  simp only [String.append_assoc]
  rw [cmd_head_merge, cmd_tail_merge]
  rfl

/-- One call performs at most as many still-image saves as the armed flag
allows, and disarms the flag when it does save. -/
theorem stepSaves_bound {T : Type} (op : Op T) (st : ProcState T) :
    (stepSaves op st).2 + flagWeight (stepSaves op st).1 ≤ flagWeight st := by
  cases op with
  | opInit w h d => simp [stepSaves, flagWeight]
  | opStart sp t => simp [stepSaves, flagWeight]
  | opClose pc ok => simp [stepSaves, flagWeight]
  | opUpdate t =>
    cases hm : st.ctrl.m_ffmpeg with
    | none => simp [stepSaves, update, hm, flagWeight]
    | some hdl =>
      cases hf : st.save_first_frame_img <;>
        simp [stepSaves, update, hm, hf, flagWeight]

/-- Over any call sequence, total saves plus the remaining arming of the flag
never exceed the initial arming. -/
theorem runSaves_bound {T : Type} (ops : List (Op T)) (st : ProcState T) :
    (runSaves ops st).2 + flagWeight (runSaves ops st).1 ≤ flagWeight st := by
  induction ops generalizing st with
  | nil => simp [runSaves]
  | cons op ops ih =>
    have h1 := stepSaves_bound op st
    have h2 := ih (stepSaves op st).1
    simp only [runSaves] at h2 ⊢
    omega

/-- Controller state right after `init(640x480 camera, "/tmp/rec")` on a fresh
object: the shared concrete example used by witnesses. -/
def demoInit : ControllerState Int := (init 640 480 "/tmp/rec" (freshController Int)).1

/-- State after a successful `start_recording(0.0)` (popen yields handle 1). -/
def demoStarted : ControllerState Int :=
  (start_recording (fun _ => some 1) 0 demoInit).1

/-- Process state in the middle of a recording: one `update(1.0)` done. -/
def demoUpdated : ProcState Int :=
  (update 1 { ctrl := demoStarted, save_first_frame_img := true }).1

/-- C1: for every valid resolution, after a successful `init`, then
`start_recording(t0)` whose `popen` yields a live handle, then N consecutive
`update(t1) ... update(tN)` calls while that handle stays live, the in-memory
timestamp log `m_recorded_timestamps` holds exactly the N+1 entries
`t0, t1, ..., tN` in call order. -/
theorem C1_timestamps_in_call_order {T : Type} (w h : Nat) (d : String) (hdl : Nat)
    (t0 : T) (ts : List T) (st0 : ProcState T)
    (hw : 0 < w) (hh : 0 < h) (hd : d.isEmpty = false) :
    (start_recording (fun _ => some hdl) t0 (init w h d st0.ctrl).1).2 = 1
  ∧ (runUpdates ts
      { ctrl := (start_recording (fun _ => some hdl) t0 (init w h d st0.ctrl).1).1,
        save_first_frame_img := st0.save_first_frame_img }).ctrl.m_recorded_timestamps
      = t0 :: ts := by
  have hstart :
      start_recording (fun _ => some hdl) t0 (init w h d st0.ctrl).1
        = ({ (init w h d st0.ctrl).1 with
              m_video_filename := d ++ "/" ++ "world.mp4"
              m_ffmpeg := some hdl
              m_recorded_timestamps := [t0] }, 1) := by
    simp [start_recording, init, hd]
  refine ⟨by rw [hstart], ?_⟩
  have hlive := runUpdates_live ts
    { ctrl := (start_recording (fun _ => some hdl) t0 (init w h d st0.ctrl).1).1,
      save_first_frame_img := st0.save_first_frame_img } hdl (by rw [hstart])
  rw [hlive.1, hstart]
  rfl

/-- C1 witness: concrete run at 640x480, handle 1, timestamps 0, 1, 2. -/
theorem C1_timestamps_in_call_order_witness :
    0 < 640 ∧ 0 < 480 ∧ String.isEmpty "/tmp/rec" = false
  ∧ ((start_recording (fun _ => some 1) (0 : Int)
        (init 640 480 "/tmp/rec" (freshProc Int).ctrl).1).2 = 1
    ∧ (runUpdates [1, 2]
        { ctrl := (start_recording (fun _ => some 1) (0 : Int)
            (init 640 480 "/tmp/rec" (freshProc Int).ctrl).1).1,
          save_first_frame_img := (freshProc Int).save_first_frame_img
            }).ctrl.m_recorded_timestamps = [0, 1, 2]) :=
  ⟨by decide, by decide, by decide,
    C1_timestamps_in_call_order 640 480 "/tmp/rec" 1 0 [1, 2] (freshProc Int)
      (by decide) (by decide) (by decide)⟩

/-- C2 (defect in the source, recorded at its failing input): on an
initialized 640x480 session, when `popen` fails and yields a null handle,
`start_recording` still returns 1 (success), leaves `m_ffmpeg` null, and
still resets the timestamp log to the start timestamp - it neither surfaces
an error nor leaves the Initialized state untouched, contradicting the
required spawn-failure handling. -/
theorem C2_spawn_failure_still_reports_success :
    (start_recording (fun _ => none) (0 : Int) demoInit).2 = 1
  ∧ (start_recording (fun _ => none) (0 : Int) demoInit).1.m_ffmpeg = none
  ∧ (start_recording (fun _ => none) (0 : Int) demoInit).1.m_recorded_timestamps
      = [0] := by
  refine ⟨?_, ?_, ?_⟩ <;> decide

/-- C3: `update(t)` while the encoder handle is null takes the
error-reporting early-return path (result `errNoFfmpeg`, the branch that
prints the FFmpeg-not-initialized error), appends nothing to the timestamp
log, and changes no state at all. -/
theorem C3_update_without_encoder_reports_and_keeps_log {T : Type}
    (t : T) (st : ProcState T) (hnone : st.ctrl.m_ffmpeg = none) :
    update t st = (st, UpdateResult.errNoFfmpeg, false) := by
  unfold update
  rw [hnone]

/-- C3 witness: a fresh process (no `start_recording` yet) at timestamp 0. -/
theorem C3_update_without_encoder_witness :
    (freshProc Int).ctrl.m_ffmpeg = none
  ∧ update (0 : Int) (freshProc Int)
      = (freshProc Int, UpdateResult.errNoFfmpeg, false) :=
  ⟨rfl, C3_update_without_encoder_reports_and_keeps_log 0 (freshProc Int) rfl⟩

/-- C4: `close` with a null encoder handle (never started, or already
closed) skips the whole body: it returns success (`true`), writes nothing,
and leaves the state unchanged. -/
theorem C4_close_without_encoder_noop {T : Type}
    (pc : Int) (ok : Bool) (st : ControllerState T) (hnone : st.m_ffmpeg = none) :
    close pc ok st = (st, true, none) := by
  unfold close
  rw [hnone]

/-- C4 witness: `close` on a fresh controller before any `start_recording`
(the second-consecutive-`close` case satisfies the same null-handle
hypothesis, since `close` nulls the handle). -/
theorem C4_close_without_encoder_witness :
    (freshController Int).m_ffmpeg = none
  ∧ close 0 false (freshController Int) = (freshController Int, true, none) :=
  ⟨rfl, C4_close_without_encoder_noop 0 false (freshController Int) rfl⟩

/-- C5 counterexample: a successful `close` of a live recording (init,
start with handle 1, one update, then close whose flush succeeds) returns
`true` but leaves the in-memory timestamp log still holding `[0, 1]` - the
log is flushed yet NOT cleared, so the claim that it is empty after `close`
is false. -/
theorem C5_log_not_cleared_counterexample :
    (close 0 true demoUpdated.ctrl).2.1 = true
  ∧ (close 0 true demoUpdated.ctrl).1.m_recorded_timestamps = [0, 1]
  ∧ ¬ (close 0 true demoUpdated.ctrl).1.m_recorded_timestamps = [] := by
  refine ⟨?_, ?_, ?_⟩ <;> decide

/-- C5 (amended): after a successful `close` of a live recording, the whole
in-memory timestamp log has been flushed to
`<saveDirectory>/world_timestamps.npy`, but the log is NOT cleared: it still
holds exactly the entries it had when `close` was invoked (it is reset only
by the next `start_recording`). -/
theorem C5_close_flushes_but_does_not_clear {T : Type}
    (pc : Int) (st : ControllerState T) (hdl : Nat) (hlive : st.m_ffmpeg = some hdl) :
    (close pc true st).2.1 = true
  ∧ (close pc true st).2.2
      = some (st.m_saveDirectory ++ "/" ++ "world_timestamps.npy",
              st.m_recorded_timestamps)
  ∧ (close pc true st).1.m_recorded_timestamps = st.m_recorded_timestamps := by
  unfold close
  rw [hlive]
  simp

/-- C5 witness: the amended statement at the concrete mid-recording state. -/
theorem C5_close_flushes_but_does_not_clear_witness :
    demoUpdated.ctrl.m_ffmpeg = some 1
  ∧ ((close 0 true demoUpdated.ctrl).2.1 = true
    ∧ (close 0 true demoUpdated.ctrl).2.2
        = some (demoUpdated.ctrl.m_saveDirectory ++ "/" ++ "world_timestamps.npy",
                demoUpdated.ctrl.m_recorded_timestamps)
    ∧ (close 0 true demoUpdated.ctrl).1.m_recorded_timestamps
        = demoUpdated.ctrl.m_recorded_timestamps) :=
  ⟨by decide, C5_close_flushes_but_does_not_clear 0 demoUpdated.ctrl 1 (by decide)⟩

/-- C6: when the timestamp flush fails, `close` on a live encoder returns
`false` (the persistence failure is reported), and the encoder handle has
nevertheless already been released (`pclose` ran before the flush attempt),
so the resulting state has a null `m_ffmpeg`. -/
theorem C6_flush_failure_reported_and_encoder_released {T : Type}
    (pc : Int) (st : ControllerState T) (hdl : Nat) (hlive : st.m_ffmpeg = some hdl) :
    (close pc false st).2.1 = false
  ∧ (close pc false st).1.m_ffmpeg = none := by
  unfold close
  rw [hlive]
  simp

/-- C6 witness: flush failure at the concrete mid-recording state. -/
theorem C6_flush_failure_witness :
    demoUpdated.ctrl.m_ffmpeg = some 1
  ∧ ((close 0 false demoUpdated.ctrl).2.1 = false
    ∧ (close 0 false demoUpdated.ctrl).1.m_ffmpeg = none) :=
  ⟨by decide, C6_flush_failure_reported_and_encoder_released 0 demoUpdated.ctrl 1 (by decide)⟩

/-- C7: the encoder command built by `start_recording` is exactly
`ffmpeg -r 60 -f rawvideo -pix_fmt rgba -s <W>x<H> -i - -threads 0
-preset fast -y -pix_fmt yuv420p -crf 21 -vf vflip <saveDirectory>/world.mp4`
for every resolution and save directory (the filename argument is the
`<saveDirectory>/world.mp4` that `start_recording` passes), and it is a
deterministic function of exactly those inputs: two sessions with equal
resolution and save directory build the identical command. -/
theorem C7_command_flat_and_deterministic (w h : Nat) (d : String) :
    ffmpegCommand w h (d ++ "/" ++ "world.mp4")
      = "ffmpeg -r 60 -f rawvideo -pix_fmt rgba -s " ++ toString w ++ "x" ++ toString h
          ++ " -i - -threads 0 -preset fast -y -pix_fmt yuv420p -crf 21 -vf vflip "
          ++ d ++ "/world.mp4"
  ∧ ∀ (w2 h2 : Nat) (d2 : String), w2 = w → h2 = h → d2 = d →
      ffmpegCommand w2 h2 (d2 ++ "/" ++ "world.mp4")
        = ffmpegCommand w h (d ++ "/" ++ "world.mp4") := by
  refine ⟨ffmpegCommand_eq w h d, ?_⟩
  rintro w2 h2 d2 rfl rfl rfl
  rfl

/-- C7 witness: the command at 640x480 in `/tmp/rec`, and a second session
with the same resolution and directory building the identical command. -/
theorem C7_command_witness :
    ffmpegCommand 640 480 ("/tmp/rec" ++ "/" ++ "world.mp4")
      = "ffmpeg -r 60 -f rawvideo -pix_fmt rgba -s " ++ toString 640 ++ "x"
          ++ toString 480
          ++ " -i - -threads 0 -preset fast -y -pix_fmt yuv420p -crf 21 -vf vflip "
          ++ "/tmp/rec" ++ "/world.mp4"
  ∧ ffmpegCommand 640 480 ("/tmp/rec" ++ "/" ++ "world.mp4")
      = ffmpegCommand 640 480 ("/tmp/rec" ++ "/" ++ "world.mp4") :=
  ⟨(C7_command_flat_and_deterministic 640 480 "/tmp/rec").1,
   (C7_command_flat_and_deterministic 640 480 "/tmp/rec").2 640 480 "/tmp/rec"
     rfl rfl rfl⟩

/-- C8 counterexample: `init` with a camera of zero resolution (and an empty,
hence unusable, directory string) still returns 1 - it reports success and
binds the camera (the Initialized configuration), so the claim that such an
`init` fails with a ConfigError is false on the code. -/
theorem C8_invalid_resolution_init_succeeds_counterexample :
    (init 0 0 "" (freshController Int)).2 = 1
  ∧ (init 0 0 "" (freshController Int)).1.m_cameraSet = true
  ∧ (init 0 0 "" (freshController Int)).1.m_width = 0 :=
  ⟨rfl, rfl, rfl⟩

/-- C8 (amended): `init` performs no validation at all: for every camera
resolution (including zero) and every directory string (including an empty
one) it returns 1 and transitions to the Initialized configuration, binding
exactly the given resolution and directory. -/
theorem C8_init_never_fails {T : Type} (w h : Nat) (d : String)
    (st : ControllerState T) :
    (init w h d st).2 = 1
  ∧ (init w h d st).1.m_cameraSet = true
  ∧ (init w h d st).1.m_width = w
  ∧ (init w h d st).1.m_height = h
  ∧ (init w h d st).1.m_saveDirectory = d :=
  ⟨rfl, rfl, rfl, rfl, rfl⟩

/-- C9: across any sequence of controller calls in one process lifetime -
any mix of `init`, `start_recording`, `update` and `close`, hence any number
of sessions - the first-frame still image is saved at most once, because the
guard is the process-lifetime static `save_first_frame_img`. -/
theorem C9_first_frame_saved_at_most_once {T : Type} (ops : List (Op T)) :
    (runSaves ops (freshProc T)).2 ≤ 1 := by
  have h := runSaves_bound ops (freshProc T)
  have hw : flagWeight (freshProc T) = 1 := rfl
  rw [hw] at h
  omega

/-- C10: the success value of `close` on a live encoder is the flush outcome
alone and is independent of the `pclose` status, which the source discards:
any two `pclose` statuses give literally the same result, and the returned
Bool equals `npy_save_ok` - in particular `close` reports success whenever
the flush succeeds, even if the encoder process exited with failure. -/
theorem C10_close_ignores_pclose_status {T : Type}
    (pc pc2 : Int) (ok : Bool) (st : ControllerState T) (hdl : Nat)
    (hlive : st.m_ffmpeg = some hdl) :
    close pc ok st = close pc2 ok st
  ∧ (close pc ok st).2.1 = ok := by
  refine ⟨rfl, ?_⟩
  unfold close
  rw [hlive]
  cases ok <;> simp

/-- C10 witness: at the concrete mid-recording state, `pclose` statuses -1
(encoder failed) and 0 give the same result, and a successful flush makes
`close` return `true`. -/
theorem C10_close_ignores_pclose_status_witness :
    demoUpdated.ctrl.m_ffmpeg = some 1
  ∧ (close (-1) true demoUpdated.ctrl = close 0 true demoUpdated.ctrl
    ∧ (close (-1) true demoUpdated.ctrl).2.1 = true) :=
  ⟨by decide, C10_close_ignores_pclose_status (-1) 0 true demoUpdated.ctrl 1 (by decide)⟩

end VDrill
